import Mathlib

/-!
# Profiler-Backend: verification of the authentication/session layer

A shallow embedding of `src/index.js` (Deuss-space/Profiler-Backend).
Request handlers become pure Lean functions from an explicit request /
environment state to a result record describing the HTTP status, the JSON
body fields, the cookies set, and the new mutable state (session object,
database rows, caches, pending timers).  JavaScript truthiness tests on
ids and strings are modelled explicitly (`truthyN`, `truthyS`).
-/

namespace Profiler

/-- JS truthiness of an optional numeric id: `undefined`/`null` and `0` are
falsy (`if (x)` in the source). -/
def truthyN : Option Nat → Bool
  | some n => n ≠ 0
  | none => false

/-- JS truthiness of an optional string: `undefined`/`null` and `""` are
falsy (`if (x)` in the source). -/
def truthyS : Option String → Bool
  | some s => s ≠ ""
  | none => false

@[simp] theorem truthyN_some (n : Nat) : truthyN (some n) = (n ≠ 0 : Bool) := rfl
@[simp] theorem truthyN_none : truthyN none = false := rfl
@[simp] theorem truthyS_some (s : String) : truthyS (some s) = (s ≠ "" : Bool) := rfl
@[simp] theorem truthyS_none : truthyS none = false := rfl

/-! ## Credential codec (JWT issue / verify)

The repository signs and verifies bearer tokens through the `jsonwebtoken`
library (`jwt.sign(payload, JWT_SECRET, { expiresIn: '30d' })` at login and
the session-check endpoint, `jwt.verify(token, JWT_SECRET)` in
`loginRequired` and the auth middleware).  The library itself is not part
of `src/`. -/

/-- The claim set the repository signs: `{ id, email, full_name, tier,
is_verified }` (see `jwt.sign` in `app.post('/api/auth/login')`). -/
structure TokenClaims where
  id : Nat
  email : String
  full_name : String
  tier : String
  is_verified : Bool
  deriving Repr, DecidableEq

/-- A signed token: the (decoded) claims, the expiry instant `exp`
(seconds), and the signature over both. -/
structure SignedToken where
  claims : TokenClaims
  exp : Nat
  sig : Nat
  deriving Repr, DecidableEq

/-- A deterministic 32-bit string digest used inside the modelled MAC. -/
def strHash (s : String) : Nat :=
  s.data.foldl (fun h c => (h * 31 + c.toNat) % (2 ^ 32)) 7

/-- Modelled from the spec: the HMAC computed by the `jsonwebtoken`
library over the serialized claims and expiry with the process secret
(`issue ... signs with a process-wide secret`, §4.1).  The library code is
not in `src/`; any deterministic keyed digest represents it. -/
def macSign (secret : Nat) (c : TokenClaims) (exp : Nat) : Nat :=
  (secret * 1000003 + c.id * 65599 + strHash c.email * 31
    + strHash c.full_name * 13 + strHash c.tier * 11
    + (if c.is_verified then 1 else 0) * 7 + exp) % (2 ^ 32)

/-- Modelled from the spec: `issue(identity, ttl) -> token` — "serializes
identity claims plus expiry, signs with a process-wide secret" (§4.1).
Mirrors `jwt.sign(claims, JWT_SECRET, { expiresIn: ttl })` called at time
`now`: the token carries the claims, `exp = now + ttl`, and the MAC. -/
def issue (secret : Nat) (c : TokenClaims) (ttl now : Nat) : SignedToken :=
  { claims := c, exp := now + ttl, sig := macSign secret c (now + ttl) }

/-- Outcome of verification: the decoded claims, or invalid (expired,
tampered or malformed — the source treats every `jwt.verify` throw alike). -/
inductive VerifyResult where
  | valid (c : TokenClaims)
  | invalid
  deriving Repr, DecidableEq

/-- Modelled from the spec: `verify(token) -> identity | Invalid` — "checks
signature integrity and expiry" (§4.1).  Mirrors `jwt.verify(token,
JWT_SECRET)` evaluated at clock time `now`: a bad signature or a clock at
or past `exp` yields `invalid` (the `jsonwebtoken` library rejects a token
whose `exp` is ≤ the current clock). -/
def verify (secret : Nat) (t : SignedToken) (now : Nat) : VerifyResult :=
  if t.sig ≠ macSign secret t.claims t.exp then .invalid
  else if t.exp ≤ now then .invalid
  else .valid t.claims

/-- The 30-day lifetime (`expiresIn: '30d'`, and the cookie
`Max-Age=${30 * 24 * 60 * 60}`), in seconds. -/
def thirtyDays : Nat := 30 * 24 * 60 * 60

/-! ## getInitials helper (`function getInitials(name)`)

```js
function getInitials(name) {
  if (!name) return '';
  return name.split(' ').map(word => word.charAt(0)).join('').toUpperCase();
}
```
-/

/-- JS `word.charAt(0)`: the first character as a one-character string, or
`""` for the empty string. -/
def charAt0 (w : String) : String :=
  match w.data with
  | [] => ""
  | c :: _ => String.singleton c

/-- JS `s.toUpperCase()`, character by character. -/
def jsToUpper (s : String) : String :=
  ⟨s.data.map Char.toUpper⟩

/-- JS `s.toLowerCase()`, character by character. -/
def jsToLower (s : String) : String :=
  ⟨s.data.map Char.toLower⟩

/-- JS `s.split(sep)` for a one-character separator: split at every
occurrence, keeping empty pieces. -/
def jsSplitAux (sep : Char) : List Char → List Char → List String
  | [], acc => [⟨acc.reverse⟩]
  | c :: cs, acc =>
      if c = sep then ⟨acc.reverse⟩ :: jsSplitAux sep cs []
      else jsSplitAux sep cs (c :: acc)

def jsSplit (sep : Char) (s : String) : List String :=
  jsSplitAux sep s.data []

/-- `getInitials` from the source.  `!name` is true for `null`,
`undefined` (both `none` here) and the empty string. -/
def getInitials : Option String → String
  | none => ""
  | some name =>
      if name = "" then ""
      else jsToUpper (String.join ((jsSplit ' ' name).map charAt0))

/-- The claim's reading of the helper: uppercase the concatenation of the
first character of each space-separated word. -/
def initialsSpec (name : String) : String :=
  jsToUpper (String.join ((jsSplit ' ' name).map charAt0))

/-! ## Global error handler (`app.use((err, req, res, next) => ...)`) -/

/-- An error object reaching the global handler: `code`, `message`, and an
optional `statusCode`. -/
structure JsError where
  code : Option String
  message : String
  statusCode : Option Nat
  deriving Repr, DecidableEq

/-- What the error-handling middleware does with an error.  `retryOp`
(re-running the failed operation inside the same request) is in the action
space so that "no retry" is expressible; the source never produces it. -/
inductive ErrorAction where
  | continueNext
  | respond (status : Nat) (error : String)
  | retryOp
  deriving Repr, DecidableEq

/-- JS `message.includes(sub)` modelled through `splitOn`. -/
def strIncludes (message sub : String) : Bool :=
  (message.splitOn sub).length ≥ 2

/-- The generic tail of the handler: redact the message in production,
use `err.statusCode || 500`. -/
def genericErrorResponse (production : Bool) (err : JsError) : ErrorAction :=
  .respond
    (match err.statusCode with
      | some s => if s = 0 then 500 else s
      | none => 500)
    (if production then "An unexpected error occurred" else err.message)

/-- The global error handler from the source: the `switch (err.code)`
dispatch (42P01 / 42P07 continue; 23505 continues only for
`session_pkey`; ETIMEDOUT / ECONNREFUSED / ENOTFOUND answer 503), and the
generic redacting response otherwise. -/
def globalErrorHandler (production : Bool) (err : JsError) : ErrorAction :=
  if truthyS err.code then
    let c := err.code.getD ""
    if c = "42P01" then .continueNext
    else if c = "42P07" then .continueNext
    else if c = "23505" then
      if strIncludes err.message "session_pkey" then .continueNext
      else genericErrorResponse production err
    else if c = "ETIMEDOUT" ∨ c = "ECONNREFUSED" ∨ c = "ENOTFOUND" then
      .respond 503 "Database service temporarily unavailable"
    else genericErrorResponse production err
  else genericErrorResponse production err

/-! ## Session and user data model -/

/-- The mutable part of `req.session` that the authentication layer
touches: the `uid` user reference. -/
structure SessionState where
  uid : Option Nat
  deriving Repr, DecidableEq

/-- A row of `deuss.users` as the auth endpoints read it
(`SELECT id, email, full_name, avatar_url, tier, is_verified`).
`tier` and `is_verified` may be NULL — the source guards them with
`user.tier || 'basic'` and `user.is_verified || false`. -/
structure UserRow where
  id : Nat
  email : String
  password : String
  full_name : String
  avatar_url : Option String
  tier : Option String
  is_verified : Option Bool
  verification_token : Option String
  verification_token_expiry : Option Nat
  country : Option String
  created_at : Nat
  updated_at : Nat
  deriving Repr, DecidableEq

/-- `user.tier || 'basic'`. -/
def tierOrBasic (row : UserRow) : String :=
  match row.tier with
  | some t => if t = "" then "basic" else t
  | none => "basic"

/-- `user.is_verified || false`. -/
def verifiedOrFalse (row : UserRow) : Bool :=
  (row.is_verified).getD false

/-- The claims both `app.post('/api/auth/login')` and
`app.get('/api/auth/session')` sign from a database row. -/
def claimsOfRow (row : UserRow) : TokenClaims :=
  { id := row.id
    email := row.email
    full_name := row.full_name
    tier := tierOrBasic row
    is_verified := verifiedOrFalse row }

/-- The `user` object in auth responses (login / session check). -/
structure UserBody where
  id : Nat
  email : String
  full_name : String
  avatar_url : Option String
  tier : String
  is_verified : Bool
  initials : String
  deriving Repr, DecidableEq

/-- The `user:` object built by `app.get('/api/auth/session')` (and, with
two extra timestamps not modelled here, by login). -/
def userBodyOfRow (row : UserRow) : UserBody :=
  { id := row.id
    email := row.email
    full_name := row.full_name
    avatar_url := row.avatar_url
    tier := tierOrBasic row
    is_verified := verifiedOrFalse row
    initials := getInitials (some row.full_name) }

/-- The users table, searched by id (`WHERE id = $1`) or by email
(`WHERE email = $1`): the first matching row, as `result.rows[0]`. -/
def dbFindById (db : List UserRow) (i : Nat) : Option UserRow :=
  db.find? (fun row => row.id = i)

def dbFindByEmail (db : List UserRow) (e : String) : Option UserRow :=
  db.find? (fun row => row.email = e)

/-! ## `loginRequired` middleware -/

/-- The credential carriers `loginRequired` inspects: the session (absent
if initialization failed), the parsed `Authorization: Bearer` token, and
the `jwt=` cookie token.  `none` for a header/cookie that is absent or not
in bearer shape. -/
structure AuthRequest where
  session : Option SessionState
  headerToken : Option SignedToken
  cookieToken : Option SignedToken
  deriving Repr, DecidableEq

/-- What `loginRequired` leaves behind when it calls `next()`: the
resolved user id, `req.user` (set only on the token paths), and the
session after a possible uid backfill; or the 401 rejection. -/
inductive AuthOutcome where
  | proceed (userId : Nat) (reqUser : Option TokenClaims) (newSession : Option SessionState)
  | reject401
  deriving Repr, DecidableEq

/-- `jwt.verify` on an optional token, collapsed to the decoded claims
when the claims carry a truthy `id` (`if (decoded && decoded.id)`). -/
def decodedWithId (secret : Nat) (now : Nat) : Option SignedToken → Option TokenClaims
  | none => none
  | some t =>
      match verify secret t now with
      | .valid c => if c.id ≠ 0 then some c else none
      | .invalid => none

/-- Backfill used on both token paths of `loginRequired`: if a session
object exists but has no truthy `uid`, store the resolved id in it. -/
def backfillSession (userId : Nat) : Option SessionState → Option SessionState
  | none => none
  | some s => if truthyN s.uid then some s else some { uid := some userId }

/-- Steps 2 and 3 of `loginRequired`: the Authorization-header token,
then the cookie token, each with `req.user` assignment and session
backfill; 401 when neither decodes to a truthy id. -/
def loginRequiredTokenPhase (secret now : Nat) (req : AuthRequest) : AuthOutcome :=
  match decodedWithId secret now req.headerToken with
  | some c => .proceed c.id (some c) (backfillSession c.id req.session)
  | none =>
      match decodedWithId secret now req.cookieToken with
      | some c => .proceed c.id (some c) (backfillSession c.id req.session)
      | none => .reject401

/-- The `loginRequired` middleware: session uid first
(`if (req.session?.uid)`), then the Authorization-header token, then the
cookie token, else 401. -/
def loginRequired (secret now : Nat) (req : AuthRequest) : AuthOutcome :=
  match req.session with
  | some s =>
      if truthyN s.uid then
        .proceed (s.uid.getD 0) none (some s)
      else
        loginRequiredTokenPhase secret now req
  | none => loginRequiredTokenPhase secret now req

/-! ## `app.get('/api/auth/session')` (session check / whoami) -/

/-- The request state the session-check endpoint reads: the bearer header
token, the session, and `req.sessionID`. -/
structure SessionCheckRequest where
  headerToken : Option SignedToken
  session : Option SessionState
  sessionID : Option String
  deriving Repr, DecidableEq

/-- The observable outcome of `app.get('/api/auth/session')`: the HTTP
status and body fields, the `jwt=` cookie set alongside, and the session
effects (destroyed / touched / saved uid). -/
structure SessionCheckResult where
  status : Nat
  isValid : Bool
  sessionValid : Option Bool
  sessionID : Option (Option String)
  token : Option SignedToken
  user : Option UserBody
  setCookieJwt : Option SignedToken
  newSession : Option SessionState
  touched : Bool
  deriving Repr, DecidableEq

/-- The id the endpoint resolves: the token's truthy `id` first
(`tokenUser.id`), else the session's truthy `uid`
(`userId = userId || req.session.uid`). -/
def sessionCheckUserId (secret now : Nat) (req : SessionCheckRequest) : Option Nat :=
  let fromToken := (decodedWithId secret now req.headerToken).map (·.id)
  match req.session with
  | some s => if truthyN s.uid then fromToken.orElse (fun _ => s.uid) else fromToken
  | none => fromToken

/-- `isSessionValid`: the session exists and carries a truthy `uid`. -/
def sessionCheckSessionValid (req : SessionCheckRequest) : Bool :=
  match req.session with
  | some s => truthyN s.uid
  | none => false

/-- The session-check endpoint.  Resolution, then the
`SELECT ... WHERE id = $1` lookup; on success a fresh 30-day token signed
from the row, `touch`, uid backfill, the backup `jwt=` cookie and the
`{isValid, sessionValid, sessionID, token, user}` body; 401 when nothing
resolves, 404 (destroying the session) when the row is gone. -/
def sessionCheck (secret now : Nat) (db : List UserRow) (req : SessionCheckRequest) :
    SessionCheckResult :=
  match sessionCheckUserId secret now req with
  | none =>
      { status := 401, isValid := false, sessionValid := none, sessionID := none
        token := none, user := none, setCookieJwt := none
        newSession := req.session, touched := false }
  | some userId =>
      match dbFindById db userId with
      | none =>
          { status := 404, isValid := false, sessionValid := none, sessionID := none
            token := none, user := none, setCookieJwt := none
            newSession := none, touched := false }
      | some row =>
          let newToken := issue secret (claimsOfRow row) thirtyDays now
          let isSessionValid := sessionCheckSessionValid req
          let newSession :=
            match req.session with
            | some s =>
                if ¬ isSessionValid ∧ ¬ truthyN s.uid then some { uid := some userId }
                else some s
            | none => none
          { status := 200, isValid := true
            sessionValid := some isSessionValid
            sessionID := some req.sessionID
            token := some newToken
            user := some (userBodyOfRow row)
            setCookieJwt := some newToken
            newSession := newSession
            touched := req.session.isSome }

/-! ## `app.post('/api/auth/login')` -/

/-- The `user` object in the login response (`formattedUser`): the
session-check shape plus the two row timestamps. -/
structure LoginUserBody where
  id : Nat
  email : String
  full_name : String
  avatar_url : Option String
  tier : String
  is_verified : Bool
  created_at : Nat
  updated_at : Nat
  initials : String
  deriving Repr, DecidableEq

/-- `formattedUser` built by the login handler. -/
def loginUserBody (row : UserRow) : LoginUserBody :=
  { id := row.id
    email := row.email
    full_name := row.full_name
    avatar_url := row.avatar_url
    tier := tierOrBasic row
    is_verified := verifiedOrFalse row
    created_at := row.created_at
    updated_at := row.updated_at
    initials := getInitials (some row.full_name) }

/-- Process environment the login handler reads, plus the pieces of
ambient nondeterminism made explicit: the fresh verification token
(`crypto.randomBytes`) and whether `req.session.save` reports an error. -/
structure LoginEnv where
  secret : Nat
  now : Nat
  emailVerification : Bool
  freshVerificationToken : String
  sessionSaveFails : Bool
  deriving Repr, DecidableEq

/-- The observable outcome of a login request: HTTP status, body fields,
the `jwt=` cookie, and the new session / users-table state.
`sessionID = some v` means the 200 body carries `sessionID: v`
(`v = none` is JSON `null`). -/
structure LoginResult where
  status : Nat
  success : Bool
  message : String
  user : Option LoginUserBody
  token : Option SignedToken
  sessionStatus : Option String
  sessionID : Option (Option String)
  setCookieJwt : Option SignedToken
  newSession : Option SessionState
  newDb : List UserRow
  needsVerification : Bool
  deriving Repr, DecidableEq

/-- The early-return login failures share this shape: no user body, no
token, no cookie, session and database untouched. -/
def loginFailure (status : Nat) (message : String) (needsVerification : Bool)
    (session : Option SessionState) (db : List UserRow) : LoginResult :=
  { status := status, success := false, message := message
    user := none, token := none, sessionStatus := none, sessionID := none
    setCookieJwt := none, newSession := session, newDb := db
    needsVerification := needsVerification }

/-- The login handler.  `compare` stands for `bcrypt.compare(password,
user.password)`.  Control flow of the source: missing fields → 400; no
row for the email → 401; failed compare → 401; unverified user under
`EMAIL_VERIFICATION` → 403 after possibly refreshing the verification
token in the table; otherwise sign a 30-day token from the row, store
`uid` in the session (the in-memory read-back check of the source cannot
fail in a pure model, so `non-functional` does not arise), set the backup
`jwt=` cookie and answer 200. -/
def loginHandler (compare : String → String → Bool) (env : LoginEnv)
    (email password : Option String) (db : List UserRow)
    (session : Option SessionState) (reqSessionID : Option String) : LoginResult :=
  if ¬ (truthyS email ∧ truthyS password) then
    loginFailure 400 "Email and password are required" false session db
  else
    match dbFindByEmail db (email.getD "") with
    | none => loginFailure 401 "Invalid credentials" false session db
    | some user =>
        if ¬ compare (password.getD "") user.password then
          loginFailure 401 "Invalid credentials" false session db
        else if env.emailVerification ∧ ¬ verifiedOrFalse user then
          let stale := ¬ truthyS user.verification_token
              ∨ env.now > (user.verification_token_expiry.getD 0)
          let db' :=
            if stale then
              db.map (fun r =>
                if r.id = user.id then
                  { r with verification_token := some env.freshVerificationToken
                           verification_token_expiry := some (env.now + 24 * 60 * 60)
                           updated_at := env.now }
                else r)
            else db
          loginFailure 403 "Please verify your email before logging in" true session db'
        else
          let token := issue env.secret (claimsOfRow user) thirtyDays env.now
          let sessionStatus :=
            match session with
            | none => "unavailable"
            | some _ => if env.sessionSaveFails then "error-saving" else "active"
          let newSession :=
            match session with
            | none => none
            | some _ => some { uid := some user.id }
          let sessionID :=
            match session with
            | none => (none : Option String)
            | some _ => reqSessionID
          { status := 200, success := true, message := "Logged in successfully"
            user := some (loginUserBody user)
            token := some token
            sessionStatus := some sessionStatus
            sessionID := some sessionID
            setCookieJwt := some token
            newSession := newSession
            newDb := db
            needsVerification := false }

/-! ## `app.post('/api/auth/register')` -/

/-- Outcome of a registration request. -/
structure RegisterResult where
  status : Nat
  errorMsg : Option String
  message : Option String
  newDb : List UserRow
  deriving Repr, DecidableEq

/-- The register handler: missing fields → 400; `SELECT * FROM deuss.users
WHERE email = $1` non-empty → 400 `User already exists` before any INSERT;
otherwise INSERT the new row (hashed password, verification token with a
24-hour expiry, `is_verified = false`) and answer 201. -/
def registerHandler (email password fullName : Option String)
    (hashedPassword freshToken : String) (now nextId : Nat)
    (db : List UserRow) : RegisterResult :=
  if ¬ (truthyS email ∧ truthyS password ∧ truthyS fullName) then
    { status := 400, errorMsg := some "All fields are required", message := none, newDb := db }
  else
    match dbFindByEmail db (email.getD "") with
    | some _ =>
        { status := 400, errorMsg := some "User already exists", message := none, newDb := db }
    | none =>
        let row : UserRow :=
          { id := nextId, email := email.getD "", password := hashedPassword
            full_name := fullName.getD "", avatar_url := none, tier := none
            is_verified := some false
            verification_token := some freshToken
            verification_token_expiry := some (now + 24 * 60 * 60)
            country := none, created_at := now, updated_at := now }
        { status := 201, errorMsg := none
          message := some "User registered successfully. Please check your email to verify your account."
          newDb := db ++ [row] }

/-! ## Session-store reconnect logic

Two places in the source react to store trouble:

* the `sessionStore.on('error', ...)` handler schedules
  `setTimeout(() => sessionStore.connect(), 5000)` on **every** error
  event (guarded only by `typeof sessionStore.connect === 'function'`);
* the request middleware
  `if (!req.session && req.sessionStore && req.sessionStore.connected === false)`
  calls `req.sessionStore.connect()` synchronously, with no timer.
-/

/-- Pending reconnect timers (one entry per scheduled `setTimeout`,
holding its delay in milliseconds). -/
structure ReconnectState where
  pendingTimers : List Nat
  deriving Repr, DecidableEq

/-- The `sessionStore.on('error')` handler: when the store exposes a
`connect` function, append one 5000 ms reconnect timer; nothing
deduplicates against timers already pending. -/
def onStoreError (hasConnect : Bool) (st : ReconnectState) : ReconnectState :=
  if hasConnect then { pendingTimers := st.pendingTimers ++ [5000] } else st

/-- The reconnect middleware: `true` iff it calls
`req.sessionStore.connect()` — synchronously, within the request, never
through a timer. -/
def reconnectMiddlewareConnectsNow (sessionMissing hasStore connectedIsFalse hasConnect : Bool) :
    Bool :=
  sessionMissing && hasStore && connectedIsFalse && hasConnect

/-! ## Twitter profile cache (`app.get('/api/twitter-profile')`) -/

/-- A `twitterCache.profiles` entry: `{ data, timestamp }`. -/
structure CacheEntry where
  data : String
  timestamp : Int
  deriving Repr, DecidableEq

/-- `PROFILE_CACHE_TTL = 15 * 60 * 1000` (ms). -/
def PROFILE_CACHE_TTL : Int := 15 * 60 * 1000

/-- The upstream Twitter API answer for the profile request, by status. -/
inductive UpstreamStatus where
  | ok (data : String)
  | unauthorized
  | rateLimited
  | notFound
  | other (status : Nat) (detail : String)
  deriving Repr, DecidableEq

/-- A profile response body: the profile payload, or an error object. -/
inductive ProfileBody where
  | payload (data : String)
  | errorBody (error : String)
  deriving Repr, DecidableEq

/-- Outcome of a profile request: status, body, the cache afterwards, and
whether the upstream API was called. -/
structure ProfileResult where
  status : Nat
  body : ProfileBody
  newProfiles : List (String × CacheEntry)
  calledUpstream : Bool
  deriving Repr, DecidableEq

/-- `Map.set` on the assoc-list model of `twitterCache.profiles`. -/
def cacheSet (m : List (String × CacheEntry)) (k : String) (v : CacheEntry) :
    List (String × CacheEntry) :=
  if m.any (fun p => p.1 = k) then
    m.map (fun p => if p.1 = k then (k, v) else p)
  else m ++ [(k, v)]

/-- The cache-miss tail of the profile handler: 404 when no API key
resolves (before any upstream call); otherwise the upstream answer is
mapped, with the 429 branch falling back to the (stale) `cached` entry
when one exists, and a successful fetch written to the cache. -/
def twitterProfileFetch (now : Int) (key : String)
    (profiles : List (String × CacheEntry)) (cached : Option CacheEntry)
    (apiKey : Option String) (upstream : UpstreamStatus) : ProfileResult :=
  match apiKey with
  | none =>
      { status := 404, body := .errorBody "Twitter API key not found for this user"
        newProfiles := profiles, calledUpstream := false }
  | some _ =>
      match upstream with
      | .unauthorized =>
          { status := 401, body := .errorBody "Invalid Twitter credentials"
            newProfiles := profiles, calledUpstream := true }
      | .rateLimited =>
          match cached with
          | some e =>
              { status := 200, body := .payload e.data
                newProfiles := profiles, calledUpstream := true }
          | none =>
              { status := 429, body := .errorBody "Twitter API rate limit exceeded"
                newProfiles := profiles, calledUpstream := true }
      | .notFound =>
          { status := 404, body := .errorBody "Twitter user not found"
            newProfiles := profiles, calledUpstream := true }
      | .other s _ =>
          { status := s, body := .errorBody "Twitter API error"
            newProfiles := profiles, calledUpstream := true }
      | .ok data =>
          { status := 200, body := .payload data
            newProfiles := cacheSet profiles key { data := data, timestamp := now }
            calledUpstream := true }

/-- The profile handler.  Key = lowercased username; a cached entry with
`timestamp > now - PROFILE_CACHE_TTL` is returned without an upstream
call; everything else goes through `twitterProfileFetch`. -/
def twitterProfileHandler (now : Int) (username : Option String)
    (profiles : List (String × CacheEntry)) (apiKey : Option String)
    (upstream : UpstreamStatus) : ProfileResult :=
  if ¬ truthyS username then
    { status := 400, body := .errorBody "Missing username parameter"
      newProfiles := profiles, calledUpstream := false }
  else
    let key := jsToLower (username.getD "")
    let cached := profiles.lookup key
    match cached with
    | some e =>
        if e.timestamp > now - PROFILE_CACHE_TTL then
          { status := 200, body := .payload e.data
            newProfiles := profiles, calledUpstream := false }
        else twitterProfileFetch now key profiles cached apiKey upstream
    | none => twitterProfileFetch now key profiles cached apiKey upstream

/-! ## Bookmark category handlers (`POST` / `PUT /api/bookmarks/category`) -/

/-- A `deuss.bookmark_categories` row. -/
structure CategoryRow where
  id : Nat
  user_id : Nat
  name : String
  icon : String
  deriving Repr, DecidableEq

/-- Outcome of a category request: status, response pieces, the table
afterwards, and whether the handler executed the UPDATE statement. -/
structure CategoryResult where
  status : Nat
  message : Option String
  category : Option CategoryRow
  newCats : List CategoryRow
  ranUpdate : Bool
  deriving Repr, DecidableEq

/-- `icon || 'wrench'`. -/
def iconOrWrench (icon : Option String) : String :=
  if truthyS icon then icon.getD "" else "wrench"

/-- The INSERT both handlers share: a fresh row for the user, 201. -/
def categoryInsert (userId : Nat) (name icon : Option String)
    (cats : List CategoryRow) (nextId : Nat) : CategoryResult :=
  let row : CategoryRow :=
    { id := nextId, user_id := userId, name := name.getD "", icon := iconOrWrench icon }
  { status := 201, message := some "Category created successfully"
    category := some row, newCats := cats ++ [row], ranUpdate := false }

/-- The verify-then-UPDATE tail both handlers share for short ids. -/
def categoryUpdate (userId i : Nat) (name icon : Option String)
    (cats : List CategoryRow) (notFoundMsg : String) : CategoryResult :=
  match cats.find? (fun r => r.id = i ∧ r.user_id = userId) with
  | none =>
      { status := 404, message := some notFoundMsg, category := none
        newCats := cats, ranUpdate := false }
  | some r =>
      let r' := { r with name := name.getD "", icon := iconOrWrench icon }
      { status := 200, message := some "Category updated successfully"
        category := some r'
        newCats := cats.map (fun c =>
          if c.id = i ∧ c.user_id = userId then
            { c with name := name.getD "", icon := iconOrWrench icon }
          else c)
        ranUpdate := true }

/-- `app.post('/api/bookmarks/category')`: auth check, name check; with a
truthy `id`, a decimal representation longer than 10 characters routes to
a fresh INSERT (the temporary-frontend-id branch), a short one to
verify-then-UPDATE; without an id, INSERT. -/
def postBookmarkCategory (userId : Option Nat) (name icon : Option String)
    (i : Option Nat) (cats : List CategoryRow) (nextId : Nat) : CategoryResult :=
  if ¬ truthyN userId then
    { status := 401, message := some "Authentication required", category := none
      newCats := cats, ranUpdate := false }
  else if ¬ truthyS name then
    { status := 400, message := some "Category name is required", category := none
      newCats := cats, ranUpdate := false }
  else if truthyN i then
    if (Nat.repr (i.getD 0)).length > 10 then
      categoryInsert (userId.getD 0) name icon cats nextId
    else
      categoryUpdate (userId.getD 0) (i.getD 0) name icon cats "Category not found"
  else
    categoryInsert (userId.getD 0) name icon cats nextId

/-- `app.put('/api/bookmarks/category')`: auth check, id required, name
required; then the same long-id INSERT / short-id UPDATE split. -/
def putBookmarkCategory (userId : Option Nat) (i : Option Nat)
    (name icon : Option String) (cats : List CategoryRow) (nextId : Nat) : CategoryResult :=
  if ¬ truthyN userId then
    { status := 401, message := some "Authentication required", category := none
      newCats := cats, ranUpdate := false }
  else if ¬ truthyN i then
    { status := 400, message := some "Category ID is required", category := none
      newCats := cats, ranUpdate := false }
  else if ¬ truthyS name then
    { status := 400, message := some "Category name is required", category := none
      newCats := cats, ranUpdate := false }
  else if (Nat.repr (i.getD 0)).length > 10 then
    categoryInsert (userId.getD 0) name icon cats nextId
  else
    categoryUpdate (userId.getD 0) (i.getD 0) name icon cats
      "Category not found or does not belong to you"

/-! ## `app.post('/api/account')` (account update) -/

/-- The `user` object in the account-update response. -/
structure AccountUserBody where
  id : Nat
  email : String
  full_name : String
  country : Option String
  avatar_url : Option String
  tier : String
  is_verified : Bool
  initials : String
  deriving Repr, DecidableEq

/-- Outcome of an account-update request. -/
structure AccountResult where
  status : Nat
  success : Option Bool
  user : Option AccountUserBody
  newDb : List UserRow
  deriving Repr, DecidableEq

/-- The account-update handler: user id from the session `uid` first,
else `req.user.id`; `full_name` required; `UPDATE ... WHERE id = $3
RETURNING ...` (404 when no row matched); the 200 body carries the
updated row with `initials` recomputed. -/
def accountUpdateHandler (sessionUid reqUserId : Option Nat)
    (full_name country : Option String) (now : Nat) (db : List UserRow) : AccountResult :=
  let userId : Option Nat :=
    if truthyN sessionUid then sessionUid
    else if truthyN reqUserId then reqUserId
    else none
  match userId with
  | none => { status := 401, success := none, user := none, newDb := db }
  | some u =>
      if ¬ truthyS full_name then
        { status := 400, success := none, user := none, newDb := db }
      else
        let newCountry := if truthyS country then country else none
        match dbFindById db u with
        | none => { status := 404, success := none, user := none, newDb := db }
        | some row =>
            let row' := { row with full_name := full_name.getD ""
                                   country := newCountry, updated_at := now }
            { status := 200, success := some true
              user := some
                { id := row'.id, email := row'.email, full_name := row'.full_name
                  country := row'.country, avatar_url := row'.avatar_url
                  tier := tierOrBasic row', is_verified := verifiedOrFalse row'
                  initials := getInitials (some row'.full_name) }
              newDb := db.map (fun r =>
                if r.id = u then
                  { r with full_name := full_name.getD ""
                           country := newCountry, updated_at := now }
                else r) }

/-! # Theorems for the claims -/

/-- C3: a token issued by signing an identity payload with the process
secret and a ttl verifies back to the same identity claims at any time
strictly before the expiry instant, and verification fails (treated as
Invalid) at any time after the expiry instant. -/
theorem issue_verify_roundtrip (secret : Nat) (c : TokenClaims) (ttl issuedAt t : Nat) :
    (t < issuedAt + ttl → verify secret (issue secret c ttl issuedAt) t = .valid c)
    ∧ (issuedAt + ttl < t → verify secret (issue secret c ttl issuedAt) t = .invalid) := by
  constructor <;> intro h
  all_goals simp only [verify, issue, ne_eq, not_true_eq_false, if_false, ite_not]
  · rw [if_neg (by omega)]
  · rw [if_pos (by omega)]

/-- Witness for C3 at a concrete payload: valid 5 ticks before expiry,
invalid 1 tick after. -/
theorem issue_verify_roundtrip_witness :
    (105 < 100 + 10
      ∧ verify 7 (issue 7 ⟨1, "a@x", "Al An", "basic", true⟩ 10 100) 105
          = .valid ⟨1, "a@x", "Al An", "basic", true⟩)
    ∧ (100 + 10 < 111
      ∧ verify 7 (issue 7 ⟨1, "a@x", "Al An", "basic", true⟩ 10 100) 111 = .invalid) :=
  ⟨⟨by decide, (issue_verify_roundtrip 7 ⟨1, "a@x", "Al An", "basic", true⟩ 10 100 105).1
      (by decide)⟩,
   ⟨by decide, (issue_verify_roundtrip 7 ⟨1, "a@x", "Al An", "basic", true⟩ 10 100 111).2
      (by decide)⟩⟩

/-- C9: `getInitials` is total with `""` for null/undefined/empty names
and the uppercased concatenation of each space-separated word's first
character otherwise, and every `user` object built by the login,
session-check and account-update handlers carries
`initials = getInitials(full_name)`. -/
theorem getInitials_contract :
    (getInitials none = "" ∧ getInitials (some "") = "")
    ∧ (∀ name : String, name ≠ "" → getInitials (some name) = initialsSpec name)
    ∧ (∀ compare env email password db session reqSessionID b,
        (loginHandler compare env email password db session reqSessionID).user = some b →
          b.initials = getInitials (some b.full_name))
    ∧ (∀ secret now db req b,
        (sessionCheck secret now db req).user = some b →
          b.initials = getInitials (some b.full_name))
    ∧ (∀ sessionUid reqUserId full_name country now db b,
        (accountUpdateHandler sessionUid reqUserId full_name country now db).user = some b →
          b.initials = getInitials (some b.full_name)) := by
  refine ⟨⟨rfl, rfl⟩, ?_, ?_, ?_, ?_⟩
  · intro name h
    simp [getInitials, initialsSpec, h]
  · intro compare env email password db session reqSessionID b hb
    unfold loginHandler at hb
    split at hb
    · simp [loginFailure] at hb
    · split at hb
      · simp [loginFailure] at hb
      · split at hb
        · simp [loginFailure] at hb
        · split at hb
          · simp [loginFailure] at hb
          · simp only [Option.some.injEq] at hb
            subst hb
            rfl
  · intro secret now db req b hb
    unfold sessionCheck at hb
    split at hb
    · simp at hb
    · split at hb
      · simp at hb
      · simp only [Option.some.injEq] at hb
        subst hb
        rfl
  · intro sessionUid reqUserId full_name country now db b hb
    unfold accountUpdateHandler at hb
    dsimp only at hb
    repeat' split at hb
    all_goals (try exact Option.noConfusion hb)
    all_goals (injection hb with hb; subst hb; rfl)

/-- Witness for C9: a two-word name through the helper, and an
account-update response carrying the recomputed initials. -/
theorem getInitials_contract_witness :
    ("Ada Brown" ≠ "" ∧ getInitials (some "Ada Brown") = initialsSpec "Ada Brown")
    ∧ ((accountUpdateHandler (some 1) none (some "Ada Brown") none 9
          [{ id := 1, email := "a@x", password := "h", full_name := "Old Name",
             avatar_url := none, tier := none, is_verified := none,
             verification_token := none, verification_token_expiry := none,
             country := none, created_at := 0, updated_at := 0 }]).user
        = some { id := 1, email := "a@x", full_name := "Ada Brown", country := none,
                 avatar_url := none, tier := "basic", is_verified := false,
                 initials := getInitials (some "Ada Brown") }
      ∧ (getInitials (some "Ada Brown")
          = getInitials (some ("Ada Brown" : String)))) :=
  ⟨⟨by decide, getInitials_contract.2.1 "Ada Brown" (by decide)⟩,
   ⟨rfl,
    getInitials_contract.2.2.2.2 (some 1) none (some "Ada Brown") none 9
      [{ id := 1, email := "a@x", password := "h", full_name := "Old Name",
         avatar_url := none, tier := none, is_verified := none,
         verification_token := none, verification_token_expiry := none,
         country := none, created_at := 0, updated_at := 0 }]
      { id := 1, email := "a@x", full_name := "Ada Brown", country := none,
        avatar_url := none, tier := "basic", is_verified := false,
        initials := getInitials (some "Ada Brown") }
      rfl⟩⟩

/-- C7: every error whose code is ETIMEDOUT, ECONNREFUSED or ENOTFOUND is
answered by the global handler with a 503 whose body states the database
service is temporarily unavailable, and the handler never retries the
failed operation within the request. -/
theorem transient_connectivity_503 (production : Bool) (err : JsError)
    (h : err.code = some "ETIMEDOUT" ∨ err.code = some "ECONNREFUSED"
        ∨ err.code = some "ENOTFOUND") :
    globalErrorHandler production err
        = .respond 503 "Database service temporarily unavailable"
    ∧ globalErrorHandler production err ≠ .retryOp := by
  have hres : globalErrorHandler production err
      = .respond 503 "Database service temporarily unavailable" := by
    rcases h with h | h | h <;> simp [globalErrorHandler, truthyS, h]
  exact ⟨hres, by rw [hres]; exact fun hcon => ErrorAction.noConfusion hcon⟩

/-- Witness for C7: a concrete ECONNREFUSED error. -/
theorem transient_connectivity_503_witness :
    ((⟨some "ECONNREFUSED", "connect ECONNREFUSED 127.0.0.1:5432", none⟩ : JsError).code
        = some "ETIMEDOUT"
      ∨ (⟨some "ECONNREFUSED", "connect ECONNREFUSED 127.0.0.1:5432", none⟩ : JsError).code
        = some "ECONNREFUSED"
      ∨ (⟨some "ECONNREFUSED", "connect ECONNREFUSED 127.0.0.1:5432", none⟩ : JsError).code
        = some "ENOTFOUND")
    ∧ (globalErrorHandler false ⟨some "ECONNREFUSED", "connect ECONNREFUSED 127.0.0.1:5432", none⟩
        = .respond 503 "Database service temporarily unavailable"
      ∧ globalErrorHandler false ⟨some "ECONNREFUSED", "connect ECONNREFUSED 127.0.0.1:5432", none⟩
        ≠ .retryOp) :=
  ⟨Or.inr (Or.inl (by decide)),
   transient_connectivity_503 false _ (Or.inr (Or.inl (by decide)))⟩

/-- C5: a login whose email matches a stored user but whose password
fails the hash comparison answers 401 with `success:false`, signs no
token, sets no `jwt` cookie, and leaves the session and the users table
untouched. -/
theorem login_wrong_password (compare : String → String → Bool) (env : LoginEnv)
    (email password : Option String) (db : List UserRow)
    (session : Option SessionState) (reqSessionID : Option String) (user : UserRow)
    (hemail : truthyS email = true) (hpass : truthyS password = true)
    (hfind : dbFindByEmail db (email.getD "") = some user)
    (hcmp : compare (password.getD "") user.password = false) :
    (loginHandler compare env email password db session reqSessionID).status = 401
    ∧ (loginHandler compare env email password db session reqSessionID).success = false
    ∧ (loginHandler compare env email password db session reqSessionID).token = none
    ∧ (loginHandler compare env email password db session reqSessionID).setCookieJwt = none
    ∧ (loginHandler compare env email password db session reqSessionID).newSession = session
    ∧ (loginHandler compare env email password db session reqSessionID).newDb = db := by
  simp [loginHandler, hemail, hpass, hfind, hcmp, loginFailure]

/-- Witness for C5: a wrong password against a one-user table. -/
theorem login_wrong_password_witness :
    (truthyS (some "a@x") = true ∧ truthyS (some "wrong") = true
      ∧ dbFindByEmail
          [{ id := 1, email := "a@x", password := "hash1", full_name := "Al An",
             avatar_url := none, tier := none, is_verified := some true,
             verification_token := none, verification_token_expiry := none,
             country := none, created_at := 0, updated_at := 0 }] ((some "a@x").getD "")
          = some { id := 1, email := "a@x", password := "hash1", full_name := "Al An",
                   avatar_url := none, tier := none, is_verified := some true,
                   verification_token := none, verification_token_expiry := none,
                   country := none, created_at := 0, updated_at := 0 }
      ∧ (fun p h => (p = h : Bool)) ((some "wrong").getD "") "hash1" = false)
    ∧ (loginHandler (fun p h => (p = h : Bool)) ⟨7, 100, false, "vt", false⟩
        (some "a@x") (some "wrong")
        [{ id := 1, email := "a@x", password := "hash1", full_name := "Al An",
           avatar_url := none, tier := none, is_verified := some true,
           verification_token := none, verification_token_expiry := none,
           country := none, created_at := 0, updated_at := 0 }]
        (some ⟨none⟩) (some "sid")).status = 401 := by
  refine ⟨⟨by decide, by decide, by decide, by decide⟩, ?_⟩
  exact (login_wrong_password (fun p h => (p = h : Bool)) ⟨7, 100, false, "vt", false⟩
    (some "a@x") (some "wrong")
    [{ id := 1, email := "a@x", password := "hash1", full_name := "Al An",
       avatar_url := none, tier := none, is_verified := some true,
       verification_token := none, verification_token_expiry := none,
       country := none, created_at := 0, updated_at := 0 }]
    (some ⟨none⟩) (some "sid")
    { id := 1, email := "a@x", password := "hash1", full_name := "Al An",
      avatar_url := none, tier := none, is_verified := some true,
      verification_token := none, verification_token_expiry := none,
      country := none, created_at := 0, updated_at := 0 }
    (by decide) (by decide) (by decide) (by decide)).1

/-- C6: registering an email that already matches a stored users row
answers 400 and performs no INSERT: the table is unchanged. -/
theorem register_existing_email (email password fullName : Option String)
    (hashedPassword freshToken : String) (now nextId : Nat)
    (db : List UserRow) (user : UserRow)
    (h1 : truthyS email = true) (h2 : truthyS password = true) (h3 : truthyS fullName = true)
    (hex : dbFindByEmail db (email.getD "") = some user) :
    (registerHandler email password fullName hashedPassword freshToken now nextId db).status
        = 400
    ∧ (registerHandler email password fullName hashedPassword freshToken now nextId db).errorMsg
        = some "User already exists"
    ∧ (registerHandler email password fullName hashedPassword freshToken now nextId db).newDb
        = db := by
  simp [registerHandler, h1, h2, h3, hex]

/-- Witness for C6: re-registering the only stored email. -/
theorem register_existing_email_witness :
    (truthyS (some "a@x") = true ∧ truthyS (some "pw") = true ∧ truthyS (some "Al An") = true
      ∧ dbFindByEmail
          [{ id := 1, email := "a@x", password := "hash1", full_name := "Al An",
             avatar_url := none, tier := none, is_verified := some true,
             verification_token := none, verification_token_expiry := none,
             country := none, created_at := 0, updated_at := 0 }] ((some "a@x").getD "")
          = some { id := 1, email := "a@x", password := "hash1", full_name := "Al An",
                   avatar_url := none, tier := none, is_verified := some true,
                   verification_token := none, verification_token_expiry := none,
                   country := none, created_at := 0, updated_at := 0 })
    ∧ (registerHandler (some "a@x") (some "pw") (some "Al An") "hash2" "vt" 5 2
        [{ id := 1, email := "a@x", password := "hash1", full_name := "Al An",
           avatar_url := none, tier := none, is_verified := some true,
           verification_token := none, verification_token_expiry := none,
           country := none, created_at := 0, updated_at := 0 }]).newDb
      = [{ id := 1, email := "a@x", password := "hash1", full_name := "Al An",
           avatar_url := none, tier := none, is_verified := some true,
           verification_token := none, verification_token_expiry := none,
           country := none, created_at := 0, updated_at := 0 }] := by
  refine ⟨⟨by decide, by decide, by decide, by decide⟩, ?_⟩
  exact (register_existing_email (some "a@x") (some "pw") (some "Al An") "hash2" "vt" 5 2
    [{ id := 1, email := "a@x", password := "hash1", full_name := "Al An",
       avatar_url := none, tier := none, is_verified := some true,
       verification_token := none, verification_token_expiry := none,
       country := none, created_at := 0, updated_at := 0 }]
    { id := 1, email := "a@x", password := "hash1", full_name := "Al An",
      avatar_url := none, tier := none, is_verified := some true,
      verification_token := none, verification_token_expiry := none,
      country := none, created_at := 0, updated_at := 0 }
    (by decide) (by decide) (by decide) (by decide)).2.2

/-- A fresh cache hit: with a truthy username whose lowercased key maps
to an entry inside the TTL window, the handler answers 200 with the
cached payload and never reaches the upstream call. -/
theorem twitterProfileHandler_hit (now : Int) (username : String)
    (profiles : List (String × CacheEntry)) (apiKey : Option String)
    (upstream : UpstreamStatus) (e : CacheEntry)
    (hu : username ≠ "")
    (hl : profiles.lookup (jsToLower username) = some e)
    (hfresh : e.timestamp > now - PROFILE_CACHE_TTL) :
    twitterProfileHandler now (some username) profiles apiKey upstream
      = { status := 200, body := .payload e.data
          newProfiles := profiles, calledUpstream := false } := by
  unfold twitterProfileHandler
  rw [if_neg (by simp [truthyS, hu])]
  dsimp only [Option.getD_some]
  rw [hl]
  dsimp only
  rw [if_pos hfresh]

/-- A stale cache entry: the handler falls through to the fetch tail,
still carrying the stale entry for the 429 fallback. -/
theorem twitterProfileHandler_stale (now : Int) (username : String)
    (profiles : List (String × CacheEntry)) (apiKey : Option String)
    (upstream : UpstreamStatus) (e : CacheEntry)
    (hu : username ≠ "")
    (hl : profiles.lookup (jsToLower username) = some e)
    (hstale : ¬ (e.timestamp > now - PROFILE_CACHE_TTL)) :
    twitterProfileHandler now (some username) profiles apiKey upstream
      = twitterProfileFetch now (jsToLower username) profiles (some e) apiKey upstream := by
  unfold twitterProfileHandler
  rw [if_neg (by simp [truthyS, hu])]
  dsimp only [Option.getD_some]
  rw [hl]
  dsimp only
  rw [if_neg hstale]

/-- C8: a profile cache entry written at `T` is returned verbatim without
an upstream call at `T + 14 min`; at `T + 16 min` the upstream is
re-fetched (and recached) when it answers normally; and when the upstream
answers 429 at `T + 16 min` the stale entry is returned with a 200
status. -/
theorem twitter_profile_cache_staleness (username p fresh apiKey : String) (T : Int)
    (profiles : List (String × CacheEntry)) (u1 : UpstreamStatus)
    (hu : username ≠ "")
    (hl : profiles.lookup (jsToLower username) = some ⟨p, T⟩) :
    (twitterProfileHandler (T + 14 * 60 * 1000) (some username) profiles (some apiKey) u1
      = { status := 200, body := .payload p
          newProfiles := profiles, calledUpstream := false })
    ∧ (twitterProfileHandler (T + 16 * 60 * 1000) (some username) profiles (some apiKey)
          (.ok fresh)
      = { status := 200, body := .payload fresh
          newProfiles := cacheSet profiles (jsToLower username) ⟨fresh, T + 16 * 60 * 1000⟩
          calledUpstream := true })
    ∧ (twitterProfileHandler (T + 16 * 60 * 1000) (some username) profiles (some apiKey)
          .rateLimited
      = { status := 200, body := .payload p
          newProfiles := profiles, calledUpstream := true }) := by
  refine ⟨?_, ?_, ?_⟩
  · exact twitterProfileHandler_hit _ _ _ _ _ _ hu hl
      (by simp only [PROFILE_CACHE_TTL]; omega)
  · rw [twitterProfileHandler_stale _ _ _ _ _ _ hu hl
      (by simp only [PROFILE_CACHE_TTL]; omega)]
    rfl
  · rw [twitterProfileHandler_stale _ _ _ _ _ _ hu hl
      (by simp only [PROFILE_CACHE_TTL]; omega)]
    rfl

/-- Witness for C8: one cached profile for `alice`, written at `T = 0`,
queried at 14 and 16 minutes. -/
theorem twitter_profile_cache_staleness_witness :
    (("Alice" : String) ≠ ""
      ∧ [(jsToLower "Alice", (⟨"profileA", 0⟩ : CacheEntry))].lookup (jsToLower "Alice")
          = some ⟨"profileA", 0⟩)
    ∧ (twitterProfileHandler (0 + 14 * 60 * 1000) (some "Alice")
          [(jsToLower "Alice", ⟨"profileA", 0⟩)] (some "key") .rateLimited
        = { status := 200, body := .payload "profileA"
            newProfiles := [(jsToLower "Alice", ⟨"profileA", 0⟩)], calledUpstream := false })
    ∧ (twitterProfileHandler (0 + 16 * 60 * 1000) (some "Alice")
          [(jsToLower "Alice", ⟨"profileA", 0⟩)] (some "key") .rateLimited
        = { status := 200, body := .payload "profileA"
            newProfiles := [(jsToLower "Alice", ⟨"profileA", 0⟩)], calledUpstream := true }) := by
  have h := twitter_profile_cache_staleness "Alice" "profileA" "freshA" "key" 0
    [(jsToLower "Alice", ⟨"profileA", 0⟩)] .rateLimited (by decide) (by decide)
  exact ⟨⟨by decide, by decide⟩, h.1, h.2.2⟩

/-- C10: a category create-or-update request whose id prints to more than
10 decimal characters never runs the UPDATE: both the POST and the PUT
handler insert a brand-new row for the user and answer 201, whatever the
table contains. -/
theorem long_id_category_inserts (userId i nextId : Nat) (name : String)
    (icon : Option String) (cats : List CategoryRow)
    (huid : userId ≠ 0) (hname : name ≠ "")
    (hlen : (Nat.repr i).length > 10) :
    (postBookmarkCategory (some userId) (some name) icon (some i) cats nextId
      = categoryInsert userId (some name) icon cats nextId)
    ∧ (putBookmarkCategory (some userId) (some i) (some name) icon cats nextId
      = categoryInsert userId (some name) icon cats nextId)
    ∧ (categoryInsert userId (some name) icon cats nextId).status = 201
    ∧ (categoryInsert userId (some name) icon cats nextId).ranUpdate = false
    ∧ (categoryInsert userId (some name) icon cats nextId).newCats
      = cats ++ [{ id := nextId, user_id := userId, name := name, icon := iconOrWrench icon }] := by
  have hi : i ≠ 0 := by
    intro h
    subst h
    revert hlen
    decide
  refine ⟨?_, ?_, rfl, rfl, rfl⟩
  · simp [postBookmarkCategory, truthyN, truthyS, huid, hname, hi, hlen]
  · simp [putBookmarkCategory, truthyN, truthyS, huid, hname, hi, hlen]

/-- Witness for C10: a 13-digit timestamp-style id. -/
theorem long_id_category_inserts_witness :
    ((3 : Nat) ≠ 0 ∧ ("Research" : String) ≠ ""
      ∧ (Nat.repr 1700000000123).length > 10)
    ∧ (postBookmarkCategory (some 3) (some "Research") none (some 1700000000123)
          [{ id := 1700000000123 % 1000, user_id := 3, name := "Old", icon := "wrench" }] 9).status
        = 201
    ∧ (putBookmarkCategory (some 3) (some 1700000000123) (some "Research") none
          [{ id := 1700000000123 % 1000, user_id := 3, name := "Old", icon := "wrench" }] 9).ranUpdate
        = false := by
  have h := long_id_category_inserts 3 1700000000123 9 "Research" none
    [{ id := 1700000000123 % 1000, user_id := 3, name := "Old", icon := "wrench" }]
    (by decide) (by decide) (by decide)
  refine ⟨⟨by decide, by decide, by decide⟩, ?_, ?_⟩
  · rw [h.1]
    exact h.2.2.1
  · rw [h.2.1]
    exact h.2.2.2.1

/-- C4 counterexample: two store error events (with `connect` available)
leave two pending 5-second reconnect timers — nothing in the source
enforces the single in-flight reconnect invariant. -/
theorem reconnect_timers_stack_counterexample :
    (onStoreError true (onStoreError true ⟨[]⟩)).pendingTimers = [5000, 5000]
    ∧ ¬ ((onStoreError true (onStoreError true ⟨[]⟩)).pendingTimers.length ≤ 1) := by
  decide

/-- C4 amended: every reconnect timer the error-event handler schedules
has the fixed 5000 ms delay, but `n` error events stack `n` pending
timers (no deduplication), and the disconnect-detecting middleware calls
`connect()` synchronously with no delay and no timer. -/
theorem reconnect_schedule_amended (n : Nat) (st : ReconnectState) :
    ((onStoreError true)^[n] ⟨[]⟩).pendingTimers = List.replicate n 5000
    ∧ (onStoreError true st).pendingTimers = st.pendingTimers ++ [5000]
    ∧ reconnectMiddlewareConnectsNow true true true true = true := by
  refine ⟨?_, rfl, rfl⟩
  induction n with
  | zero => rfl
  | succ k ih =>
      rw [Function.iterate_succ_apply']
      simp [onStoreError, ih, List.replicate_succ']

/-- C1 counterexample: with a session referencing user 1 and a valid
bearer token for user 2, the session-check endpoint resolves user 2 (the
token's id), because it reads the token first and keeps its id
(`userId = userId || req.session.uid`). -/
theorem session_token_conflict_counterexample :
    (sessionCheckUserId 7 100
        { headerToken := some (issue 7 ⟨2, "b@x", "Bo Bn", "basic", true⟩ 50 100)
          session := some ⟨some 1⟩
          sessionID := some "sid" } = some 2)
    ∧ ((sessionCheck 7 100
        [⟨1, "a@x", "h1", "Al An", none, none, some true, none, none, none, 0, 0⟩,
         ⟨2, "b@x", "h2", "Bo Bn", none, none, some true, none, none, none, 0, 0⟩]
        { headerToken := some (issue 7 ⟨2, "b@x", "Bo Bn", "basic", true⟩ 50 100)
          session := some ⟨some 1⟩
          sessionID := some "sid" }).user.map (fun u => u.id) = some 2)
    ∧ (2 : Nat) ≠ 1 := by
  refine ⟨by decide, by decide, by decide⟩

/-- C1 amended: `loginRequired` does resolve the session's user id when
the session carries one; the session-check endpoint instead resolves the
token's id whenever a valid bearer token with a truthy id is presented,
and only falls back to the session reference without one. -/
theorem auth_precedence_amended (secret now : Nat) (req : AuthRequest)
    (s : SessionState) (u : Nat) (screq screq' : SessionCheckRequest)
    (c : TokenClaims) (s' : SessionState) (u' : Nat)
    (hs : req.session = some s) (hu : s.uid = some u) (hu0 : u ≠ 0)
    (hdec : decodedWithId secret now screq.headerToken = some c)
    (hnotok : decodedWithId secret now screq'.headerToken = none)
    (hs' : screq'.session = some s') (hu' : s'.uid = some u') (hu0' : u' ≠ 0) :
    loginRequired secret now req = .proceed u none (some s)
    ∧ sessionCheckUserId secret now screq = some c.id
    ∧ sessionCheckUserId secret now screq' = some u' := by
  refine ⟨?_, ?_, ?_⟩
  · unfold loginRequired
    rw [hs]
    simp [truthyN, hu, hu0]
  · unfold sessionCheckUserId
    rw [hdec]
    cases hses : screq.session with
    | none => rfl
    | some t =>
        by_cases ht : truthyN t.uid = true <;> simp [ht, Option.orElse]
  · unfold sessionCheckUserId
    rw [hnotok, hs']
    simp [truthyN, hu', hu0', Option.orElse]

/-- Witness for C1 (amended): concrete conflicting credentials — the
middleware resolves the session's user 1, the check endpoint the token's
user 2, and a token-free request resolves the session's user 1. -/
theorem auth_precedence_amended_witness :
    ((some (⟨some 1⟩ : SessionState) = some ⟨some 1⟩)
      ∧ ((⟨some 1⟩ : SessionState).uid = some 1) ∧ (1 : Nat) ≠ 0
      ∧ decodedWithId 7 100 (some (issue 7 ⟨2, "b@x", "Bo Bn", "basic", true⟩ 50 100))
          = some ⟨2, "b@x", "Bo Bn", "basic", true⟩
      ∧ decodedWithId 7 100 (none : Option SignedToken) = none)
    ∧ loginRequired 7 100
        { session := some ⟨some 1⟩
          headerToken := some (issue 7 ⟨2, "b@x", "Bo Bn", "basic", true⟩ 50 100)
          cookieToken := none }
        = .proceed 1 none (some ⟨some 1⟩)
    ∧ sessionCheckUserId 7 100
        { headerToken := some (issue 7 ⟨2, "b@x", "Bo Bn", "basic", true⟩ 50 100)
          session := some ⟨some 1⟩, sessionID := none }
        = some (⟨2, "b@x", "Bo Bn", "basic", true⟩ : TokenClaims).id
    ∧ sessionCheckUserId 7 100
        { headerToken := none, session := some ⟨some 1⟩, sessionID := none }
        = some 1 := by
  have h := auth_precedence_amended 7 100
    { session := some ⟨some 1⟩
      headerToken := some (issue 7 ⟨2, "b@x", "Bo Bn", "basic", true⟩ 50 100)
      cookieToken := none }
    ⟨some 1⟩ 1
    { headerToken := some (issue 7 ⟨2, "b@x", "Bo Bn", "basic", true⟩ 50 100)
      session := some ⟨some 1⟩, sessionID := none }
    { headerToken := none, session := some ⟨some 1⟩, sessionID := none }
    ⟨2, "b@x", "Bo Bn", "basic", true⟩ ⟨some 1⟩ 1
    rfl rfl (by decide) (by decide) rfl rfl rfl (by decide)
  exact ⟨⟨rfl, rfl, by decide, by decide, rfl⟩, h.1, h.2.1, h.2.2⟩

/-- C2: the session-check endpoint, when an identity resolves and its
user row exists, answers 200 with a fresh 30-day token signed from the
database row, mirrors it in the `jwt` cookie, touches an existing
session, backfills a session that lacks a uid, and returns
`{isValid, sessionValid, sessionID, token, user}`; without a resolved
identity it answers 401 with `isValid:false`, and with a missing user
row 404 with `isValid:false`. -/
theorem sessionCheck_contract (secret now : Nat) (db : List UserRow)
    (req : SessionCheckRequest) :
    (∀ u row, sessionCheckUserId secret now req = some u →
      dbFindById db u = some row →
      (sessionCheck secret now db req).status = 200
      ∧ (sessionCheck secret now db req).isValid = true
      ∧ (sessionCheck secret now db req).token
        = some (issue secret (claimsOfRow row) thirtyDays now)
      ∧ (sessionCheck secret now db req).setCookieJwt
        = some (issue secret (claimsOfRow row) thirtyDays now)
      ∧ (sessionCheck secret now db req).sessionValid
        = some (sessionCheckSessionValid req)
      ∧ (sessionCheck secret now db req).sessionID = some req.sessionID
      ∧ (sessionCheck secret now db req).user = some (userBodyOfRow row)
      ∧ (req.session.isSome → (sessionCheck secret now db req).touched = true)
      ∧ (∀ s, req.session = some s → truthyN s.uid = false →
          (sessionCheck secret now db req).newSession = some ⟨some u⟩))
    ∧ (sessionCheckUserId secret now req = none →
        (sessionCheck secret now db req).status = 401
        ∧ (sessionCheck secret now db req).isValid = false
        ∧ (sessionCheck secret now db req).token = none)
    ∧ (∀ u, sessionCheckUserId secret now req = some u →
        dbFindById db u = none →
        (sessionCheck secret now db req).status = 404
        ∧ (sessionCheck secret now db req).isValid = false
        ∧ (sessionCheck secret now db req).token = none) := by
  refine ⟨?_, ?_, ?_⟩
  · intro u row hres hrow
    unfold sessionCheck
    rw [hres]
    dsimp only
    rw [hrow]
    dsimp only
    refine ⟨rfl, rfl, rfl, rfl, rfl, rfl, rfl, ?_, ?_⟩
    · intro hses
      exact hses
    · intro s hses huid
      have hsv : sessionCheckSessionValid req = false := by
        unfold sessionCheckSessionValid
        rw [hses]
        exact huid
      rw [hses]
      dsimp only
      simp [hsv, huid]
  · intro hres
    unfold sessionCheck
    rw [hres]
    exact ⟨rfl, rfl, rfl⟩
  · intro u hres hrow
    unfold sessionCheck
    rw [hres]
    dsimp only
    rw [hrow]
    exact ⟨rfl, rfl, rfl⟩

/-- Witness for C2: a token-free request with a uid-bearing session whose
user row exists. -/
theorem sessionCheck_contract_witness :
    (sessionCheckUserId 7 100
        { headerToken := none, session := some ⟨some 1⟩, sessionID := some "sid" }
      = some 1
      ∧ dbFindById [⟨1, "a@x", "h1", "Al An", none, none, some true, none, none, none, 0, 0⟩] 1
        = some ⟨1, "a@x", "h1", "Al An", none, none, some true, none, none, none, 0, 0⟩)
    ∧ (sessionCheck 7 100
        [⟨1, "a@x", "h1", "Al An", none, none, some true, none, none, none, 0, 0⟩]
        { headerToken := none, session := some ⟨some 1⟩, sessionID := some "sid" }).status
      = 200
    ∧ (sessionCheck 7 100
        [⟨1, "a@x", "h1", "Al An", none, none, some true, none, none, none, 0, 0⟩]
        { headerToken := none, session := some ⟨some 1⟩, sessionID := some "sid" }).token
      = some (issue 7
          (claimsOfRow ⟨1, "a@x", "h1", "Al An", none, none, some true, none, none, none, 0, 0⟩)
          thirtyDays 100) := by
  have h := (sessionCheck_contract 7 100
    [⟨1, "a@x", "h1", "Al An", none, none, some true, none, none, none, 0, 0⟩]
    { headerToken := none, session := some ⟨some 1⟩, sessionID := some "sid" }).1
    1 ⟨1, "a@x", "h1", "Al An", none, none, some true, none, none, none, 0, 0⟩
    (by decide) (by decide)
  exact ⟨⟨by decide, by decide⟩, h.1, h.2.2.1⟩

end Profiler
